import Mathlib

/-!
Shallow embedding of the MNEE agent-system core, translated from the
repository sources:
  * `contracts/MNEEEscrow.sol` — the escrow ledger (state, operations, events);
  * `src/agents/EscrowAgent.ts` — the transaction executor (retry loop, nonce
    handling, FIFO mutation queue).

Solidity `uint256`/`uint8` values are modelled as `Nat`; Solidity 0.8 checked
arithmetic reverts on underflow, which on the paths reachable here coincides
with `Nat` truncated subtraction (the invariants proved below keep every
subtraction non-truncating).  Addresses are modelled as `Nat`, with `0` the
zero address.  A call either reverts — returning `Except.error` and leaving
the state untouched, matching the EVM's atomic revert — or returns the updated
state together with the list of emitted events.
-/

namespace MNEE

/-- Addresses, modelled as naturals; `0` is the zero address. -/
abbrev Addr := Nat

/-- Pointwise map update for `Nat`-keyed mappings (Solidity `mapping`). -/
def upd {α : Type} (f : Nat → α) (k : Nat) (v : α) : Nat → α :=
  fun x => if x = k then v else f x

/-- The `DisputeStatus` enum of `MNEEEscrow.sol` (line 19). -/
inductive DisputeStatus where
  | NONE
  | OPEN
  | RESOLVED_FULL
  | RESOLVED_PARTIAL
  | REFUNDED
deriving DecidableEq

/-- The `Escrow` struct of `MNEEEscrow.sol` (lines 21-31). -/
structure Escrow where
  payer : Addr
  agent : Addr
  totalAmount : Nat
  paidAmount : Nat
  totalMilestones : Nat
  milestonesCompleted : Nat
  isActive : Bool
  isCompleted : Bool
  disputeStatus : DisputeStatus
deriving DecidableEq

/-- The `WorkProof` struct of `MNEEEscrow.sol` (lines 33-38); a zero
`timestamp` marks an absent proof, exactly as in the contract. -/
structure WorkProof where
  agent : Addr
  workHash : Nat
  timestamp : Nat
  isVerified : Bool
deriving DecidableEq

/-- Default (all-zero) escrow, the value of an untouched mapping slot. -/
def zeroEscrow : Escrow :=
  { payer := 0, agent := 0, totalAmount := 0, paidAmount := 0,
    totalMilestones := 0, milestonesCompleted := 0,
    isActive := false, isCompleted := false, disputeStatus := .NONE }

/-- Default (all-zero) work proof, the value of an untouched mapping slot. -/
def zeroProof : WorkProof :=
  { agent := 0, workHash := 0, timestamp := 0, isVerified := false }

/-- Contract state for one `taskId`: the escrow record, its milestone proofs,
the reputation mapping, the MNEE token balances of external accounts together
with the contract's own custody balance, and the three access-control roles
(`AGENT_ROLE`, `JUDGE_ROLE`, `DEFAULT_ADMIN_ROLE`). -/
structure State where
  escrow : Escrow
  proofs : Nat → WorkProof
  reputations : Addr → Nat
  balances : Addr → Nat
  custody : Nat
  agentRole : Addr → Bool
  judgeRole : Addr → Bool
  adminRole : Addr → Bool

/-- Revert reasons, one per `require` in the contract. -/
inductive Err where
  | InvalidAmount
  | ZeroAgent
  | InvalidMilestones
  | EscrowExists
  | TransferFailed
  | NotActive
  | OnlyAgent
  | InvalidMilestone
  | AlreadySubmitted
  | NoProof
  | AlreadyVerified
  | MissingRole
  | InDispute
  | SequenceError
  | NotVerified
  | NotAuthorized
  | NoOpenDispute
deriving DecidableEq

/-- Events of `MNEEEscrow.sol` (lines 48-56), restricted to the fields the
claims observe. -/
inductive Event where
  | EscrowCreated (payer agent : Addr) (amount milestones : Nat)
  | MilestoneReleased (idx amount : Nat)
  | EscrowCompleted
  | EscrowCancelled (payer : Addr) (amount : Nat)
  | WorkProofSubmitted (idx : Nat) (agent : Addr) (hash : Nat)
  | WorkProofVerified (idx : Nat)
  | DisputeRaised (raiser : Addr)
  | DisputeResolved (res : DisputeStatus)
  | ReputationUpdated (agent : Addr) (rep : Nat)
deriving DecidableEq

/-- Result of a ledger call: revert, or new state plus emitted events. -/
abbrev Res := Except Err (State × List Event)

/-- Solidity `require(cond, err)` followed by continuation `k`. -/
def require (c : Prop) [Decidable c] (e : Err) (k : Res) : Res :=
  if c then k else Except.error e

/-- The `_updateReputation` scalar rule of `MNEEEscrow.sol` (lines 221-229),
kept verbatim: on failure the score changes only when `current > 10`, and the
inner `current - 10 < 0 ? 0 : current - 10` comparison is (as in the Solidity
source, where `current - 10` is an unsigned value) never true. -/
def updateReputation (current : Nat) (success : Bool) : Nat :=
  if success then
    if current < 100 then (if current + 5 > 100 then 100 else current + 5) else current
  else
    if current > 10 then (if current - 10 < 0 then 0 else current - 10) else current

/-- `createEscrow` (lines 69-104): validates inputs, requires no active or
completed escrow for the task, pulls `amount` from the caller into custody,
writes the fresh escrow, and lazily initializes the agent's reputation to 50
when the stored score is 0. -/
def createEscrow (sender agent : Addr) (amount milestones : Nat) (s : State) : Res :=
  require (0 < amount) .InvalidAmount (
  require (agent ≠ 0) .ZeroAgent (
  require (0 < milestones) .InvalidMilestones (
  require (s.escrow.isActive = false ∧ s.escrow.isCompleted = false) .EscrowExists (
  require (amount ≤ s.balances sender) .TransferFailed (
    let s1 : State :=
      { s with balances := upd s.balances sender (s.balances sender - amount),
               custody := s.custody + amount,
               escrow :=
                 { payer := sender, agent := agent, totalAmount := amount,
                   paidAmount := 0, totalMilestones := milestones,
                   milestonesCompleted := 0, isActive := true,
                   isCompleted := false, disputeStatus := .NONE } }
    if s1.reputations agent = 0 then
      Except.ok ({ s1 with reputations := upd s1.reputations agent 50 },
        [.ReputationUpdated agent 50, .EscrowCreated sender agent amount milestones])
    else
      Except.ok (s1, [.EscrowCreated sender agent amount milestones]))))))

/-- `submitWorkProof` (lines 109-124). -/
def submitWorkProof (sender : Addr) (idx hash time : Nat) (s : State) : Res :=
  require (s.escrow.isActive = true) .NotActive (
  require (sender = s.escrow.agent) .OnlyAgent (
  require (idx < s.escrow.totalMilestones) .InvalidMilestone (
  require ((s.proofs idx).timestamp = 0) .AlreadySubmitted (
    let p : WorkProof := { agent := sender, workHash := hash, timestamp := time, isVerified := false }
    Except.ok ({ s with proofs := upd s.proofs idx p },
      [.WorkProofSubmitted idx sender hash])))))

/-- `verifyWorkProof` (lines 129-136); `onlyRole(AGENT_ROLE)`. -/
def verifyWorkProof (sender : Addr) (idx : Nat) (s : State) : Res :=
  require (s.agentRole sender = true) .MissingRole (
  require (0 < (s.proofs idx).timestamp) .NoProof (
  require ((s.proofs idx).isVerified = false) .AlreadyVerified (
    let p : WorkProof := { s.proofs idx with isVerified := true }
    Except.ok ({ s with proofs := upd s.proofs idx p },
      [.WorkProofVerified idx]))))

/-- Milestone payout (lines 148-152): `totalAmount / totalMilestones`
truncated, except the final milestone which receives
`totalAmount - paidAmount` to absorb the rounding remainder. -/
def payoutAmount (s : State) (idx : Nat) : Nat :=
  if idx = s.escrow.totalMilestones - 1
  then s.escrow.totalAmount - s.escrow.paidAmount
  else s.escrow.totalAmount / s.escrow.totalMilestones

/-- `releaseMilestone` (lines 141-166): `onlyRole(AGENT_ROLE)`; requires an
active, undisputed escrow, `idx == milestonesCompleted` and a verified proof;
pays `payoutAmount`; on reaching the last milestone marks the escrow
completed and raises the agent's reputation. -/
def releaseMilestone (sender : Addr) (idx : Nat) (s : State) : Res :=
  require (s.agentRole sender = true) .MissingRole (
  require (s.escrow.isActive = true) .NotActive (
  require (s.escrow.disputeStatus = DisputeStatus.NONE) .InDispute (
  require (idx = s.escrow.milestonesCompleted) .SequenceError (
  require ((s.proofs idx).isVerified = true) .NotVerified (
    let e := s.escrow
    let amt := payoutAmount s idx
    require (amt ≤ s.custody) .TransferFailed (
    if e.milestonesCompleted + 1 = e.totalMilestones then
      let newRep := updateReputation (s.reputations e.agent) true
      Except.ok ({ s with
          escrow := { e with paidAmount := e.paidAmount + amt,
                             milestonesCompleted := e.milestonesCompleted + 1,
                             isActive := false, isCompleted := true },
          reputations := upd s.reputations e.agent newRep,
          custody := s.custody - amt,
          balances := upd s.balances e.agent (s.balances e.agent + amt) },
        [.ReputationUpdated e.agent newRep, .EscrowCompleted, .MilestoneReleased idx amt])
    else
      Except.ok ({ s with
          escrow := { e with paidAmount := e.paidAmount + amt,
                             milestonesCompleted := e.milestonesCompleted + 1 },
          custody := s.custody - amt,
          balances := upd s.balances e.agent (s.balances e.agent + amt) },
        [.MilestoneReleased idx amt])))))))

/-- `raiseDispute` (lines 171-178): payer or agent, while active. -/
def raiseDispute (sender : Addr) (s : State) : Res :=
  require (s.escrow.isActive = true) .NotActive (
  require (sender = s.escrow.payer ∨ sender = s.escrow.agent) .NotAuthorized (
    Except.ok ({ s with escrow := { s.escrow with disputeStatus := .OPEN } },
      [.DisputeRaised sender])))

/-- `resolveDispute` (lines 183-204): `onlyRole(JUDGE_ROLE)`; requires an OPEN
dispute; deactivates the escrow, stores the passed resolution, and pays out
according to the three recognised outcomes (any other resolution value falls
through the `if` chain and transfers nothing). -/
def resolveDispute (sender : Addr) (res : DisputeStatus) (s : State) : Res :=
  require (s.judgeRole sender = true) .MissingRole (
  require (s.escrow.disputeStatus = DisputeStatus.OPEN) .NoOpenDispute (
    let e := s.escrow
    let remaining := e.totalAmount - e.paidAmount
    let s1 : State := { s with escrow := { e with isActive := false, disputeStatus := res } }
    match res with
    | .RESOLVED_FULL =>
        require (remaining ≤ s1.custody) .TransferFailed (
        let newRep := updateReputation (s1.reputations e.agent) true
        Except.ok ({ s1 with
            custody := s1.custody - remaining,
            balances := upd s1.balances e.agent (s1.balances e.agent + remaining),
            reputations := upd s1.reputations e.agent newRep },
          [.ReputationUpdated e.agent newRep, .DisputeResolved .RESOLVED_FULL]))
    | .REFUNDED =>
        require (remaining ≤ s1.custody) .TransferFailed (
        let newRep := updateReputation (s1.reputations e.agent) false
        Except.ok ({ s1 with
            custody := s1.custody - remaining,
            balances := upd s1.balances e.payer (s1.balances e.payer + remaining),
            reputations := upd s1.reputations e.agent newRep },
          [.ReputationUpdated e.agent newRep, .DisputeResolved .REFUNDED]))
    | .RESOLVED_PARTIAL =>
        let half := remaining / 2
        require (half ≤ s1.custody) .TransferFailed (
        let s2 : State := { s1 with
            custody := s1.custody - half,
            balances := upd s1.balances e.agent (s1.balances e.agent + half) }
        require (remaining - half ≤ s2.custody) .TransferFailed (
        Except.ok ({ s2 with
            custody := s2.custody - (remaining - half),
            balances := upd s2.balances e.payer (s2.balances e.payer + (remaining - half)) },
          [.DisputeResolved .RESOLVED_PARTIAL])))
    | .NONE => Except.ok (s1, [.DisputeResolved .NONE])
    | .OPEN => Except.ok (s1, [.DisputeResolved .OPEN])))

/-- `emergencyRefund` (lines 209-219): admin override; pays the remaining
balance back to the payer and marks the escrow inactive and not completed. -/
def emergencyRefund (sender : Addr) (s : State) : Res :=
  require (s.adminRole sender = true) .MissingRole (
  require (s.escrow.isActive = true) .NotActive (
    let e := s.escrow
    let remaining := e.totalAmount - e.paidAmount
    require (remaining ≤ s.custody) .TransferFailed (
    Except.ok ({ s with
        escrow := { e with isActive := false, isCompleted := false },
        custody := s.custody - remaining,
        balances := upd s.balances e.payer (s.balances e.payer + remaining) },
      [.EscrowCancelled e.payer remaining]))))

/-- `grantAgentRole` (lines 231-233). -/
def grantAgentRole (sender target : Addr) (s : State) : Res :=
  require (s.adminRole sender = true) .MissingRole (
    Except.ok ({ s with agentRole := upd s.agentRole target true }, []))

/-- `grantJudgeRole` (lines 235-237). -/
def grantJudgeRole (sender target : Addr) (s : State) : Res :=
  require (s.adminRole sender = true) .MissingRole (
    Except.ok ({ s with judgeRole := upd s.judgeRole target true }, []))

/-- One labelled call to the contract, used to build execution traces. -/
inductive Op where
  | createEscrow (sender agent : Addr) (amount milestones : Nat)
  | submitWorkProof (sender : Addr) (idx hash time : Nat)
  | verifyWorkProof (sender : Addr) (idx : Nat)
  | releaseMilestone (sender : Addr) (idx : Nat)
  | raiseDispute (sender : Addr)
  | resolveDispute (sender : Addr) (res : DisputeStatus)
  | emergencyRefund (sender : Addr)
  | grantAgentRole (sender target : Addr)
  | grantJudgeRole (sender target : Addr)
deriving DecidableEq

/-- Dispatch one call. -/
def step (op : Op) (s : State) : Res :=
  match op with
  | .createEscrow sender agent amount milestones => createEscrow sender agent amount milestones s
  | .submitWorkProof sender idx hash time => submitWorkProof sender idx hash time s
  | .verifyWorkProof sender idx => verifyWorkProof sender idx s
  | .releaseMilestone sender idx => releaseMilestone sender idx s
  | .raiseDispute sender => raiseDispute sender s
  | .resolveDispute sender res => resolveDispute sender res s
  | .emergencyRefund sender => emergencyRefund sender s
  | .grantAgentRole sender target => grantAgentRole sender target s
  | .grantJudgeRole sender target => grantJudgeRole sender target s

/-- Apply one call: a reverted call leaves the state unchanged. -/
def apply (op : Op) (s : State) : State :=
  match step op s with
  | .ok (s', _) => s'
  | .error _ => s

/-- Run a trace of calls. -/
def run (ops : List Op) (s : State) : State :=
  ops.foldl (fun s op => apply op s) s

/-- Run a trace, accumulating the events of the successful calls. -/
def runEvents : List Op → State × List Event → State × List Event
  | [], p => p
  | op :: ops, (s, evs) =>
    match step op s with
    | .ok (s', es) => runEvents ops (s', evs ++ es)
    | .error _ => runEvents ops (s, evs)

/-- Folding step extracting milestone payouts since the last escrow creation. -/
def relStep (acc : List Nat) (e : Event) : List Nat :=
  match e with
  | .EscrowCreated _ _ _ _ => []
  | .MilestoneReleased _ a => acc ++ [a]
  | _ => acc

/-- Amounts paid out by the successful `releaseMilestone` calls since the most
recent successful `createEscrow` in the event log. -/
def releasedSinceCreate (evs : List Event) : List Nat :=
  evs.foldl relStep []

/-- Milestone payouts `(index, amount)` recorded in an event log. -/
def milestoneAmounts (evs : List Event) : List (Nat × Nat) :=
  evs.filterMap (fun e => match e with
    | .MilestoneReleased i a => some (i, a)
    | _ => none)

/-- Revert reason of a call, if it reverted. -/
def errOf (r : Res) : Option Err :=
  match r with
  | .ok _ => none
  | .error e => some e

/-- Resulting state of a call, with a default for the revert case. -/
def stateOf (r : Res) (dflt : State) : State :=
  match r with
  | .ok (s, _) => s
  | .error _ => dflt

/-- Events of a call (empty if it reverted). -/
def evsOf (r : Res) : List Event :=
  match r with
  | .ok (_, es) => es
  | .error _ => []

/-- Deployment state: zeroed escrow, proofs and reputations, arbitrary token
balances and role assignments (the constructor grants all three roles to the
deployer; later `grantAgentRole`/`grantJudgeRole` calls extend them, so the
role sets are left general). -/
def initState (bal : Addr → Nat) (ar jr adr : Addr → Bool) : State :=
  { escrow := zeroEscrow, proofs := fun _ => zeroProof,
    reputations := fun _ => 0, balances := bal, custody := 0,
    agentRole := ar, judgeRole := jr, adminRole := adr }

/-! ### Basic facts about `require` -/

theorem require_pos {c : Prop} [Decidable c] {e : Err} {k : Res} (hc : c) :
    require c e k = k := if_pos hc

theorem require_neg {c : Prop} [Decidable c] {e : Err} {k : Res} (hc : ¬ c) :
    require c e k = Except.error e := if_neg hc

theorem require_ok_iff {c : Prop} [Decidable c] {e : Err} {k : Res}
    {x : State × List Event} :
    require c e k = Except.ok x ↔ c ∧ k = Except.ok x := by
  by_cases hc : c <;> simp [require, hc]

/-! ### Success characterizations of the ledger operations -/

theorem createEscrow_ok {sender agent : Addr} {amount milestones : Nat}
    {s s' : State} {es : List Event}
    (h : createEscrow sender agent amount milestones s = Except.ok (s', es)) :
    0 < amount ∧ agent ≠ 0 ∧ 0 < milestones ∧
    s.escrow.isActive = false ∧ s.escrow.isCompleted = false ∧
    amount ≤ s.balances sender ∧
    s'.escrow = { payer := sender, agent := agent, totalAmount := amount,
                  paidAmount := 0, totalMilestones := milestones,
                  milestonesCompleted := 0, isActive := true,
                  isCompleted := false, disputeStatus := .NONE } ∧
    (s.reputations agent = 0 → s'.reputations agent = 50) ∧
    (s.reputations agent ≠ 0 → s'.reputations agent = s.reputations agent) ∧
    (∀ acc : List Nat, List.foldl relStep acc es = []) := by
  simp only [createEscrow, require_ok_iff] at h
  obtain ⟨h1, h2, h3, ⟨h4, h5⟩, h6, h7⟩ := h
  by_cases hrep : s.reputations agent = 0
  · rw [if_pos hrep] at h7
    rw [Except.ok.injEq, Prod.mk.injEq] at h7
    obtain ⟨hs, he⟩ := h7
    subst hs; subst he
    refine ⟨h1, h2, h3, h4, h5, h6, rfl, ?_, ?_, ?_⟩
    · intro _; simp [upd]
    · intro hne; exact absurd hrep hne
    · intro acc; rfl
  · rw [if_neg hrep] at h7
    rw [Except.ok.injEq, Prod.mk.injEq] at h7
    obtain ⟨hs, he⟩ := h7
    subst hs; subst he
    refine ⟨h1, h2, h3, h4, h5, h6, rfl, ?_, ?_, ?_⟩
    · intro h0; exact absurd h0 hrep
    · intro _; rfl
    · intro acc; rfl

theorem submitWorkProof_ok {sender : Addr} {idx hash time : Nat}
    {s s' : State} {es : List Event}
    (h : submitWorkProof sender idx hash time s = Except.ok (s', es)) :
    s.escrow.isActive = true ∧ s'.escrow = s.escrow ∧
    (∀ acc : List Nat, List.foldl relStep acc es = acc) := by
  simp only [submitWorkProof, require_ok_iff] at h
  obtain ⟨h1, h2, h3, h4, h5⟩ := h
  rw [Except.ok.injEq, Prod.mk.injEq] at h5
  obtain ⟨hs, he⟩ := h5
  subst hs; subst he
  exact ⟨h1, rfl, fun acc => rfl⟩

theorem verifyWorkProof_ok {sender : Addr} {idx : Nat}
    {s s' : State} {es : List Event}
    (h : verifyWorkProof sender idx s = Except.ok (s', es)) :
    s'.escrow = s.escrow ∧
    (∀ acc : List Nat, List.foldl relStep acc es = acc) := by
  simp only [verifyWorkProof, require_ok_iff] at h
  obtain ⟨h1, h2, h3, h4⟩ := h
  rw [Except.ok.injEq, Prod.mk.injEq] at h4
  obtain ⟨hs, he⟩ := h4
  subst hs; subst he
  exact ⟨rfl, fun acc => rfl⟩

theorem releaseMilestone_ok {sender : Addr} {idx : Nat}
    {s s' : State} {es : List Event}
    (h : releaseMilestone sender idx s = Except.ok (s', es)) :
    s.agentRole sender = true ∧
    s.escrow.isActive = true ∧
    s.escrow.disputeStatus = .NONE ∧
    idx = s.escrow.milestonesCompleted ∧
    (s.proofs idx).isVerified = true ∧
    payoutAmount s idx ≤ s.custody ∧
    s'.escrow.payer = s.escrow.payer ∧
    s'.escrow.agent = s.escrow.agent ∧
    s'.escrow.totalAmount = s.escrow.totalAmount ∧
    s'.escrow.totalMilestones = s.escrow.totalMilestones ∧
    s'.escrow.paidAmount = s.escrow.paidAmount + payoutAmount s idx ∧
    s'.escrow.milestonesCompleted = s.escrow.milestonesCompleted + 1 ∧
    s'.escrow.disputeStatus = .NONE ∧
    s'.escrow.isActive = (if s.escrow.milestonesCompleted + 1 = s.escrow.totalMilestones
                          then false else true) ∧
    s'.escrow.isCompleted = (if s.escrow.milestonesCompleted + 1 = s.escrow.totalMilestones
                             then true else s.escrow.isCompleted) ∧
    s'.balances s.escrow.agent = s.balances s.escrow.agent + payoutAmount s idx ∧
    s'.custody = s.custody - payoutAmount s idx ∧
    s'.agentRole = s.agentRole ∧
    s'.proofs = s.proofs ∧
    (∀ acc : List Nat, List.foldl relStep acc es = acc ++ [payoutAmount s idx]) ∧
    Event.MilestoneReleased idx (payoutAmount s idx) ∈ es := by
  simp only [releaseMilestone, require_ok_iff] at h
  obtain ⟨h1, h2, h3, h4, h5, h6, h7⟩ := h
  by_cases hif : s.escrow.milestonesCompleted + 1 = s.escrow.totalMilestones
  · rw [if_pos hif] at h7
    rw [Except.ok.injEq, Prod.mk.injEq] at h7
    obtain ⟨hs, he⟩ := h7
    subst hs; subst he
    refine ⟨h1, h2, h3, h4, h5, h6, rfl, rfl, rfl, rfl, rfl, rfl, h3, ?_, ?_, ?_, rfl, rfl, rfl,
      fun acc => rfl, ?_⟩
    · simp [hif]
    · simp [hif]
    · simp [upd]
    · simp
  · rw [if_neg hif] at h7
    rw [Except.ok.injEq, Prod.mk.injEq] at h7
    obtain ⟨hs, he⟩ := h7
    subst hs; subst he
    refine ⟨h1, h2, h3, h4, h5, h6, rfl, rfl, rfl, rfl, rfl, rfl, h3, ?_, ?_, ?_, rfl, rfl, rfl,
      fun acc => rfl, ?_⟩
    · simpa [hif] using h2
    · simp [hif]
    · simp [upd]
    · simp

theorem raiseDispute_ok {sender : Addr} {s s' : State} {es : List Event}
    (h : raiseDispute sender s = Except.ok (s', es)) :
    s.escrow.isActive = true ∧
    (sender = s.escrow.payer ∨ sender = s.escrow.agent) ∧
    s'.escrow = { s.escrow with disputeStatus := .OPEN } ∧
    (∀ acc : List Nat, List.foldl relStep acc es = acc) := by
  simp only [raiseDispute, require_ok_iff] at h
  obtain ⟨h1, h2, h3⟩ := h
  rw [Except.ok.injEq, Prod.mk.injEq] at h3
  obtain ⟨hs, he⟩ := h3
  subst hs; subst he
  exact ⟨h1, h2, rfl, fun acc => rfl⟩

theorem resolveDispute_ok {sender : Addr} {res : DisputeStatus}
    {s s' : State} {es : List Event}
    (h : resolveDispute sender res s = Except.ok (s', es)) :
    s.judgeRole sender = true ∧
    s.escrow.disputeStatus = .OPEN ∧
    s'.escrow.payer = s.escrow.payer ∧
    s'.escrow.agent = s.escrow.agent ∧
    s'.escrow.totalAmount = s.escrow.totalAmount ∧
    s'.escrow.paidAmount = s.escrow.paidAmount ∧
    s'.escrow.totalMilestones = s.escrow.totalMilestones ∧
    s'.escrow.milestonesCompleted = s.escrow.milestonesCompleted ∧
    s'.escrow.isActive = false ∧
    s'.escrow.isCompleted = s.escrow.isCompleted ∧
    s'.escrow.disputeStatus = res ∧
    (∀ acc : List Nat, List.foldl relStep acc es = acc) := by
  simp only [resolveDispute, require_ok_iff] at h
  obtain ⟨h1, h2, h3⟩ := h
  cases res with
  | NONE =>
      rw [Except.ok.injEq, Prod.mk.injEq] at h3
      obtain ⟨hs, he⟩ := h3
      subst hs; subst he
      exact ⟨h1, h2, rfl, rfl, rfl, rfl, rfl, rfl, rfl, rfl, rfl, fun acc => rfl⟩
  | OPEN =>
      rw [Except.ok.injEq, Prod.mk.injEq] at h3
      obtain ⟨hs, he⟩ := h3
      subst hs; subst he
      exact ⟨h1, h2, rfl, rfl, rfl, rfl, rfl, rfl, rfl, rfl, rfl, fun acc => rfl⟩
  | RESOLVED_FULL =>
      rw [require_ok_iff] at h3
      obtain ⟨h4, h5⟩ := h3
      rw [Except.ok.injEq, Prod.mk.injEq] at h5
      obtain ⟨hs, he⟩ := h5
      subst hs; subst he
      exact ⟨h1, h2, rfl, rfl, rfl, rfl, rfl, rfl, rfl, rfl, rfl, fun acc => rfl⟩
  | RESOLVED_PARTIAL =>
      rw [require_ok_iff] at h3
      obtain ⟨h4, h5⟩ := h3
      rw [require_ok_iff] at h5
      obtain ⟨h6, h7⟩ := h5
      rw [Except.ok.injEq, Prod.mk.injEq] at h7
      obtain ⟨hs, he⟩ := h7
      subst hs; subst he
      exact ⟨h1, h2, rfl, rfl, rfl, rfl, rfl, rfl, rfl, rfl, rfl, fun acc => rfl⟩
  | REFUNDED =>
      rw [require_ok_iff] at h3
      obtain ⟨h4, h5⟩ := h3
      rw [Except.ok.injEq, Prod.mk.injEq] at h5
      obtain ⟨hs, he⟩ := h5
      subst hs; subst he
      exact ⟨h1, h2, rfl, rfl, rfl, rfl, rfl, rfl, rfl, rfl, rfl, fun acc => rfl⟩

theorem emergencyRefund_ok {sender : Addr} {s s' : State} {es : List Event}
    (h : emergencyRefund sender s = Except.ok (s', es)) :
    s.adminRole sender = true ∧
    s.escrow.isActive = true ∧
    s'.escrow = { s.escrow with isActive := false, isCompleted := false } ∧
    (∀ acc : List Nat, List.foldl relStep acc es = acc) := by
  simp only [emergencyRefund, require_ok_iff] at h
  obtain ⟨h1, h2, h3, h4⟩ := h
  rw [Except.ok.injEq, Prod.mk.injEq] at h4
  obtain ⟨hs, he⟩ := h4
  subst hs; subst he
  exact ⟨h1, h2, rfl, fun acc => rfl⟩

theorem grantAgentRole_ok {sender target : Addr} {s s' : State} {es : List Event}
    (h : grantAgentRole sender target s = Except.ok (s', es)) :
    s'.escrow = s.escrow ∧ es = [] := by
  simp only [grantAgentRole, require_ok_iff] at h
  obtain ⟨h1, h2⟩ := h
  rw [Except.ok.injEq, Prod.mk.injEq] at h2
  obtain ⟨hs, he⟩ := h2
  subst hs; subst he
  exact ⟨rfl, rfl⟩

theorem grantJudgeRole_ok {sender target : Addr} {s s' : State} {es : List Event}
    (h : grantJudgeRole sender target s = Except.ok (s', es)) :
    s'.escrow = s.escrow ∧ es = [] := by
  simp only [grantJudgeRole, require_ok_iff] at h
  obtain ⟨h1, h2⟩ := h
  rw [Except.ok.injEq, Prod.mk.injEq] at h2
  obtain ⟨hs, he⟩ := h2
  subst hs; subst he
  exact ⟨rfl, rfl⟩

/-! ### Failure lemmas -/

theorem releaseMilestone_open_error {sender : Addr} {idx : Nat} {s : State}
    (hOpen : s.escrow.disputeStatus = .OPEN) :
    ∃ e : Err, releaseMilestone sender idx s = Except.error e := by
  unfold releaseMilestone
  by_cases h1 : s.agentRole sender = true
  · rw [require_pos h1]
    by_cases h2 : s.escrow.isActive = true
    · rw [require_pos h2, require_neg (by simp [hOpen])]
      exact ⟨_, rfl⟩
    · rw [require_neg h2]; exact ⟨_, rfl⟩
  · rw [require_neg h1]; exact ⟨_, rfl⟩

theorem releaseMilestone_open_InDispute {sender : Addr} {idx : Nat} {s : State}
    (hOpen : s.escrow.disputeStatus = .OPEN)
    (hrole : s.agentRole sender = true) (hact : s.escrow.isActive = true) :
    releaseMilestone sender idx s = Except.error .InDispute := by
  unfold releaseMilestone
  rw [require_pos hrole, require_pos hact, require_neg (by simp [hOpen])]

theorem createEscrow_completed_error {sender agent : Addr} {amount milestones : Nat}
    {s : State} (hC : s.escrow.isCompleted = true) :
    ∃ e : Err, createEscrow sender agent amount milestones s = Except.error e := by
  cases hok : createEscrow sender agent amount milestones s with
  | error e => exact ⟨e, rfl⟩
  | ok p =>
      obtain ⟨s', es⟩ := p
      have hc := createEscrow_ok hok
      rw [hc.2.2.2.2.1] at hC
      cases hC

/-! ### Trace predicates -/

def Op.isCreate : Op → Bool
  | .createEscrow _ _ _ _ => true
  | _ => false

def Op.isResolve : Op → Bool
  | .resolveDispute _ _ => true
  | _ => false

/-- True when the trace contains no `createEscrow` and no `resolveDispute`
call. -/
def noCreateNoResolve (ops : List Op) : Bool :=
  ops.all (fun op => ! op.isCreate && ! op.isResolve)

/-! ### An OPEN dispute persists under every call except `resolveDispute`
and `createEscrow` -/

theorem apply_open {s : State} (hOpen : s.escrow.disputeStatus = .OPEN) (op : Op)
    (hnc : op.isCreate = false) (hnr : op.isResolve = false) :
    (apply op s).escrow.disputeStatus = .OPEN := by
  unfold apply
  cases hstep : step op s with
  | error e => exact hOpen
  | ok p =>
    obtain ⟨s', es⟩ := p
    cases op with
    | createEscrow a b c d => simp [Op.isCreate] at hnc
    | resolveDispute a b => simp [Op.isResolve] at hnr
    | submitWorkProof a b c d =>
        simp only [step] at hstep
        rw [(submitWorkProof_ok hstep).2.1]; exact hOpen
    | verifyWorkProof a b =>
        simp only [step] at hstep
        rw [(verifyWorkProof_ok hstep).1]; exact hOpen
    | releaseMilestone a b =>
        simp only [step] at hstep
        have hd := (releaseMilestone_ok hstep).2.2.1
        rw [hd] at hOpen
        cases hOpen
    | raiseDispute a =>
        simp only [step] at hstep
        rw [(raiseDispute_ok hstep).2.2.1]
    | emergencyRefund a =>
        simp only [step] at hstep
        rw [(emergencyRefund_ok hstep).2.2.1]; exact hOpen
    | grantAgentRole a b =>
        simp only [step] at hstep
        rw [(grantAgentRole_ok hstep).1]; exact hOpen
    | grantJudgeRole a b =>
        simp only [step] at hstep
        rw [(grantJudgeRole_ok hstep).1]; exact hOpen

theorem run_open (ops : List Op) : ∀ s : State, s.escrow.disputeStatus = .OPEN →
    noCreateNoResolve ops = true → (run ops s).escrow.disputeStatus = .OPEN := by
  induction ops with
  | nil => intro s h _; exact h
  | cons op ops ih =>
      intro s h hall
      simp only [noCreateNoResolve, List.all_cons, Bool.and_eq_true, Bool.not_eq_true'] at hall
      obtain ⟨⟨hnc, hnr⟩, hrest⟩ := hall
      have hrun : run (op :: ops) s = run ops (apply op s) := by
        simp [run, List.foldl_cons]
      rw [hrun]
      exact ih (apply op s) (apply_open h op hnc hnr) hrest

/-! ### A completed escrow record is frozen forever -/

theorem apply_frozen {s : State} (hC : s.escrow.isCompleted = true)
    (hA : s.escrow.isActive = false) (hD : s.escrow.disputeStatus = .NONE)
    (op : Op) : (apply op s).escrow = s.escrow := by
  unfold apply
  cases hstep : step op s with
  | error e => rfl
  | ok p =>
    obtain ⟨s', es⟩ := p
    cases op with
    | createEscrow a b c d =>
        simp only [step] at hstep
        have h5 := (createEscrow_ok hstep).2.2.2.2.1
        rw [h5] at hC; cases hC
    | submitWorkProof a b c d =>
        simp only [step] at hstep
        have h1 := (submitWorkProof_ok hstep).1
        rw [h1] at hA; cases hA
    | verifyWorkProof a b =>
        simp only [step] at hstep
        exact (verifyWorkProof_ok hstep).1
    | releaseMilestone a b =>
        simp only [step] at hstep
        have h2 := (releaseMilestone_ok hstep).2.1
        rw [h2] at hA; cases hA
    | raiseDispute a =>
        simp only [step] at hstep
        have h1 := (raiseDispute_ok hstep).1
        rw [h1] at hA; cases hA
    | resolveDispute a b =>
        simp only [step] at hstep
        have h2 := (resolveDispute_ok hstep).2.1
        rw [h2] at hD; cases hD
    | emergencyRefund a =>
        simp only [step] at hstep
        have h2 := (emergencyRefund_ok hstep).2.1
        rw [h2] at hA; cases hA
    | grantAgentRole a b =>
        simp only [step] at hstep
        exact (grantAgentRole_ok hstep).1
    | grantJudgeRole a b =>
        simp only [step] at hstep
        exact (grantJudgeRole_ok hstep).1

theorem run_frozen (ops : List Op) : ∀ s : State, s.escrow.isCompleted = true →
    s.escrow.isActive = false → s.escrow.disputeStatus = .NONE →
    (run ops s).escrow = s.escrow := by
  induction ops with
  | nil => intro s _ _ _; rfl
  | cons op ops ih =>
      intro s hC hA hD
      have hfr := apply_frozen hC hA hD op
      have hrun : run (op :: ops) s = run ops (apply op s) := by
        simp [run, List.foldl_cons]
      rw [hrun, ih (apply op s) (by rw [hfr]; exact hC) (by rw [hfr]; exact hA)
        (by rw [hfr]; exact hD), hfr]

/-! ### The bookkeeping invariant behind `paidAmount` -/

/-- Structural invariant of an escrow record: milestones are released strictly
in order, so before completion `paidAmount` is the number of completed
milestones times the truncated per-milestone payout, and at completion it
equals `totalAmount` exactly. -/
def EscrowInv (e : Escrow) : Prop :=
  e.milestonesCompleted ≤ e.totalMilestones ∧
  (e.milestonesCompleted < e.totalMilestones →
    e.paidAmount = e.milestonesCompleted * (e.totalAmount / e.totalMilestones)) ∧
  (e.milestonesCompleted = e.totalMilestones → e.paidAmount = e.totalAmount) ∧
  (e.isActive = true → e.milestonesCompleted < e.totalMilestones)

theorem escrowInv_paid_le {e : Escrow} (h : EscrowInv e) :
    e.paidAmount ≤ e.totalAmount := by
  obtain ⟨h1, h2, h3, h4⟩ := h
  rcases Nat.lt_or_ge e.milestonesCompleted e.totalMilestones with hlt | hge
  · rw [h2 hlt]
    calc e.milestonesCompleted * (e.totalAmount / e.totalMilestones)
        ≤ e.totalMilestones * (e.totalAmount / e.totalMilestones) :=
          Nat.mul_le_mul_right _ (Nat.le_of_lt hlt)
      _ ≤ e.totalAmount := by
          rw [Nat.mul_comm]; exact Nat.div_mul_le_self _ _
  · rw [h3 (Nat.le_antisymm h1 hge)]

/-- Combined invariant: the escrow record is well-formed and `paidAmount`
equals the sum of the milestone payouts released since the escrow's
creation, as recorded in the event log. -/
def PaidOK (s : State) (evs : List Event) : Prop :=
  EscrowInv s.escrow ∧ s.escrow.paidAmount = (releasedSinceCreate evs).sum

theorem releasedSinceCreate_append (evs es : List Event) :
    releasedSinceCreate (evs ++ es) = List.foldl relStep (releasedSinceCreate evs) es := by
  simp [releasedSinceCreate, List.foldl_append]

theorem paidOK_step {s s' : State} {evs es : List Event} {op : Op}
    (h : PaidOK s evs) (hstep : step op s = Except.ok (s', es)) :
    PaidOK s' (evs ++ es) := by
  obtain ⟨hInv, hSum⟩ := h
  have hre := releasedSinceCreate_append evs es
  cases op with
  | createEscrow sender agent amount milestones =>
      simp only [step] at hstep
      obtain ⟨hamt, _, hm, _, _, _, hesc, _, _, hfold⟩ := createEscrow_ok hstep
      constructor
      · rw [hesc]
        refine ⟨Nat.zero_le _, ?_, ?_, ?_⟩
        · intro _; simp
        · intro h0; exfalso; simp at h0; omega
        · intro _; exact hm
      · rw [hre, hfold, hesc]; simp
  | submitWorkProof a b c d =>
      simp only [step] at hstep
      obtain ⟨_, hesc, hfold⟩ := submitWorkProof_ok hstep
      refine ⟨?_, ?_⟩
      · rw [hesc]; exact hInv
      · rw [hesc, hre, hfold]; exact hSum
  | verifyWorkProof a b =>
      simp only [step] at hstep
      obtain ⟨hesc, hfold⟩ := verifyWorkProof_ok hstep
      refine ⟨?_, ?_⟩
      · rw [hesc]; exact hInv
      · rw [hesc, hre, hfold]; exact hSum
  | releaseMilestone sender idx =>
      simp only [step] at hstep
      obtain ⟨_, hact, _, hidx, _, _, _, _, htot, hm, hpaid, hcomp, _, hactive, _, _, _, _, _,
        hfold, _⟩ := releaseMilestone_ok hstep
      obtain ⟨h1, h2, h3, h4⟩ := hInv
      have hklt : s.escrow.milestonesCompleted < s.escrow.totalMilestones := h4 hact
      by_cases hfin : s.escrow.milestonesCompleted + 1 = s.escrow.totalMilestones
      · have hidx2 : idx = s.escrow.totalMilestones - 1 := by omega
        have hamt : payoutAmount s idx = s.escrow.totalAmount - s.escrow.paidAmount := by
          rw [payoutAmount, if_pos hidx2]
        have hple : s.escrow.paidAmount ≤ s.escrow.totalAmount :=
          escrowInv_paid_le ⟨h1, h2, h3, h4⟩
        refine ⟨⟨?_, ?_, ?_, ?_⟩, ?_⟩
        · rw [hcomp, hm]; omega
        · intro hlt; rw [hcomp, hm] at hlt; omega
        · intro _; rw [hpaid, hamt, htot]; omega
        · intro hactv; rw [hactive, if_pos hfin] at hactv; cases hactv
        · rw [hpaid, hre, hfold, List.sum_append, ← hSum, hamt]; simp
      · have hlt2 : s.escrow.milestonesCompleted + 1 < s.escrow.totalMilestones := by omega
        have hne : idx ≠ s.escrow.totalMilestones - 1 := by omega
        have hamt : payoutAmount s idx = s.escrow.totalAmount / s.escrow.totalMilestones := by
          rw [payoutAmount, if_neg hne]
        have hpk := h2 hklt
        refine ⟨⟨?_, ?_, ?_, ?_⟩, ?_⟩
        · rw [hcomp, hm]; omega
        · intro _
          rw [hpaid, hamt, hpk, hcomp, htot, hm, Nat.succ_mul]
        · intro heq; rw [hcomp, hm] at heq; omega
        · intro _; rw [hcomp, hm]; exact hlt2
        · rw [hpaid, hre, hfold, List.sum_append, ← hSum, hamt]; simp
  | raiseDispute a =>
      simp only [step] at hstep
      obtain ⟨_, _, hesc, hfold⟩ := raiseDispute_ok hstep
      refine ⟨?_, ?_⟩
      · rw [hesc]; exact hInv
      · rw [hesc, hre, hfold]
        exact hSum
  | resolveDispute a b =>
      simp only [step] at hstep
      obtain ⟨_, _, _, _, htot, hpaid, hm, hcomp, hactive, _, _, hfold⟩ :=
        resolveDispute_ok hstep
      obtain ⟨h1, h2, h3, h4⟩ := hInv
      refine ⟨⟨?_, ?_, ?_, ?_⟩, ?_⟩
      · rw [hcomp, hm]; exact h1
      · intro hlt; rw [hcomp, hm] at hlt; rw [hpaid, hcomp, htot, hm]; exact h2 hlt
      · intro heq; rw [hcomp, hm] at heq; rw [hpaid, htot]; exact h3 heq
      · intro hactv; rw [hactive] at hactv; cases hactv
      · rw [hpaid, hre, hfold]; exact hSum
  | emergencyRefund a =>
      simp only [step] at hstep
      obtain ⟨_, _, hesc, hfold⟩ := emergencyRefund_ok hstep
      obtain ⟨h1, h2, h3, h4⟩ := hInv
      refine ⟨⟨?_, ?_, ?_, ?_⟩, ?_⟩
      · rw [hesc]; exact h1
      · rw [hesc]; exact h2
      · rw [hesc]; exact h3
      · rw [hesc]; intro hactv; cases hactv
      · rw [hesc, hre, hfold]; exact hSum
  | grantAgentRole a b =>
      simp only [step] at hstep
      obtain ⟨hesc, hes⟩ := grantAgentRole_ok hstep
      refine ⟨?_, ?_⟩
      · rw [hesc]; exact hInv
      · rw [hesc, hre, hes]; exact hSum
  | grantJudgeRole a b =>
      simp only [step] at hstep
      obtain ⟨hesc, hes⟩ := grantJudgeRole_ok hstep
      refine ⟨?_, ?_⟩
      · rw [hesc]; exact hInv
      · rw [hesc, hre, hes]; exact hSum

theorem paidOK_runEvents (ops : List Op) : ∀ (s : State) (evs : List Event),
    PaidOK s evs → PaidOK (runEvents ops (s, evs)).1 (runEvents ops (s, evs)).2 := by
  induction ops with
  | nil => intro s evs h; exact h
  | cons op ops ih =>
      intro s evs h
      simp only [runEvents]
      cases hstep : step op s with
      | ok p =>
          obtain ⟨s', es⟩ := p
          exact ih s' (evs ++ es) (paidOK_step h hstep)
      | error e => exact ih s evs h

theorem paidOK_init (bal : Addr → Nat) (ar jr adr : Addr → Bool) :
    PaidOK (initState bal ar jr adr) [] := by
  refine ⟨⟨Nat.le_refl _, ?_, ?_, ?_⟩, rfl⟩
  · intro h0; exact absurd h0 (Nat.lt_irrefl 0)
  · intro _; rfl
  · intro h0; cases h0

/-! ### Transaction executor (`src/agents/EscrowAgent.ts`)

The `executeTransaction` method runs every ledger-mutating call through the
promise chain `this.mutationQueue = this.mutationQueue.then(...)` — a FIFO
queue in which the next operation starts only after the current one has fully
resolved — and inside the chain retries the submission in a
`while (attempts < maxAttempts)` loop with `maxAttempts = 5`.  An attempt that
throws a nonce error (`NONCE_EXPIRED` or a message containing "nonce") is
retried after a backoff while `attempts < maxAttempts`; any other error, or a
nonce error on the final attempt, is rethrown immediately.  Each attempt
invokes the operation closure afresh, and the closure calls `getTxOptions`,
which re-resolves the latest confirmed nonce from the provider (falling back
to no explicit nonce if the provider read fails).  The backoff delays and
jitter are real-time behaviour and are not modelled; the model captures the
attempt sequence, whose outcome at attempt `k` may depend on the transaction
options built from the nonce fetched at attempt `k`. -/

/-- Transaction overrides: an optional explicit nonce. -/
structure TxOpts where
  nonce : Option Nat
deriving DecidableEq

/-- `getTxOptions` (EscrowAgent.ts lines 283-303): returns `{ nonce: latest }`
when the provider read succeeds, `{}` (no explicit nonce) otherwise. -/
def getTxOptions (fetched : Option Nat) : TxOpts :=
  match fetched with
  | some n => { nonce := some n }
  | none => { nonce := none }

/-- Outcome of one submission attempt. -/
inductive Outcome where
  | confirmed
  | nonceError
  | otherError
deriving DecidableEq

/-- Result of `executeTransaction`: a confirmed receipt, a surfaced error
(each carrying the number of attempts performed), or the `result = null`
return reached only when the loop body never runs. -/
inductive TxResult where
  | confirmed (attemptsUsed : Nat)
  | thrown (e : Outcome) (attemptsUsed : Nat)
  | nullReceipt
deriving DecidableEq

def TxResult.attemptsUsed : TxResult → Nat
  | .confirmed n => n
  | .thrown _ n => n
  | .nullReceipt => 0

/-- The retry loop of `executeTransaction` (EscrowAgent.ts lines 227-274).
`op k opts` is the outcome of the submission attempted with `attempts = k`
under transaction options `opts`; `nonceAt k` is the provider's latest
confirmed nonce as observed at attempt `k`.  `fuel` bounds the remaining
iterations and equals `maxAttempts - attempts` at every call, so the `while`
guard `attempts < maxAttempts` is `0 < fuel`. -/
def executeLoop (op : Nat → TxOpts → Outcome) (nonceAt : Nat → Option Nat)
    (maxAttempts : Nat) : Nat → Nat → TxResult
  | 0, _ => .nullReceipt
  | fuel + 1, attempts =>
    match op attempts (getTxOptions (nonceAt attempts)) with
    | .confirmed => .confirmed (attempts + 1)
    | .nonceError =>
        if attempts + 1 < maxAttempts then
          executeLoop op nonceAt maxAttempts fuel (attempts + 1)
        else .thrown .nonceError (attempts + 1)
    | .otherError => .thrown .otherError (attempts + 1)

/-- `executeTransaction`: the retry loop with `maxAttempts = 5`, starting at
`attempts = 0`. -/
def executeTransaction (op : Nat → TxOpts → Outcome) (nonceAt : Nat → Option Nat) : TxResult :=
  executeLoop op nonceAt 5 5 0

/-- The FIFO mutation queue: operations enqueued on the promise chain are
executed strictly in order, each one running its full retry loop before the
next starts. -/
def processQueue (jobs : List ((Nat → TxOpts → Outcome) × (Nat → Option Nat))) : List TxResult :=
  jobs.map (fun j => executeTransaction j.1 j.2)

theorem executeLoop_attempts_le (op : Nat → TxOpts → Outcome) (nonceAt : Nat → Option Nat)
    (maxAttempts : Nat) : ∀ (fuel attempts : Nat),
    (executeLoop op nonceAt maxAttempts fuel attempts).attemptsUsed ≤ attempts + fuel := by
  intro fuel
  induction fuel with
  | zero => intro attempts; simp [executeLoop, TxResult.attemptsUsed]
  | succ f ih =>
      intro attempts
      simp only [executeLoop]
      cases op attempts (getTxOptions (nonceAt attempts)) with
      | confirmed => simp [TxResult.attemptsUsed]
      | nonceError =>
          by_cases hb : attempts + 1 < maxAttempts
          · rw [if_pos hb]
            calc (executeLoop op nonceAt maxAttempts f (attempts + 1)).attemptsUsed
                ≤ (attempts + 1) + f := ih (attempts + 1)
              _ = attempts + (f + 1) := by omega
          · rw [if_neg hb]; simp [TxResult.attemptsUsed]
      | otherError => simp [TxResult.attemptsUsed]

theorem executeLoop_confirmed {op : Nat → TxOpts → Outcome} {nonceAt : Nat → Option Nat}
    {m fuel attempts : Nat} (h : op attempts (getTxOptions (nonceAt attempts)) = .confirmed) :
    executeLoop op nonceAt m (fuel + 1) attempts = .confirmed (attempts + 1) := by
  simp only [executeLoop, h]

theorem executeLoop_nonce_continue {op : Nat → TxOpts → Outcome} {nonceAt : Nat → Option Nat}
    {m fuel attempts : Nat} (h : op attempts (getTxOptions (nonceAt attempts)) = .nonceError)
    (hlt : attempts + 1 < m) :
    executeLoop op nonceAt m (fuel + 1) attempts = executeLoop op nonceAt m fuel (attempts + 1) := by
  simp only [executeLoop, h, if_pos hlt]

theorem executeLoop_nonce_stop {op : Nat → TxOpts → Outcome} {nonceAt : Nat → Option Nat}
    {m fuel attempts : Nat} (h : op attempts (getTxOptions (nonceAt attempts)) = .nonceError)
    (hge : ¬ attempts + 1 < m) :
    executeLoop op nonceAt m (fuel + 1) attempts = .thrown .nonceError (attempts + 1) := by
  simp only [executeLoop, h, if_neg hge]

theorem executeLoop_other {op : Nat → TxOpts → Outcome} {nonceAt : Nat → Option Nat}
    {m fuel attempts : Nat} (h : op attempts (getTxOptions (nonceAt attempts)) = .otherError) :
    executeLoop op nonceAt m (fuel + 1) attempts = .thrown .otherError (attempts + 1) := by
  simp only [executeLoop, h]

/-! ### Concrete scenarios

Address conventions for the concrete runs: address 1 is the payer (the
EscrowAgent signer, holding `AGENT_ROLE` as the deployer does), address 2 the
working agent, address 3 the judge, address 4 the admin.  The payer starts
with 100 MNEE minor units. -/

def demoInit : State :=
  initState (fun x => if x = 1 then 100 else 0)
    (fun x => x == 1) (fun x => x == 3) (fun x => x == 4)

/-- The spec's worked example: 100 tokens across 3 milestones, every
milestone submitted, verified and released in order. -/
def demoOps : List Op :=
  [ .createEscrow 1 2 100 3,
    .submitWorkProof 2 0 11 5, .verifyWorkProof 1 0, .releaseMilestone 1 0,
    .submitWorkProof 2 1 12 6, .verifyWorkProof 1 1, .releaseMilestone 1 1,
    .submitWorkProof 2 2 13 7, .verifyWorkProof 1 2, .releaseMilestone 1 2 ]

def demoFinal : State := run demoOps demoInit

def demoEvents : List Event := (runEvents demoOps (demoInit, [])).2

def c1pre : State :=
  run [Op.createEscrow 1 2 100 3, Op.submitWorkProof 2 0 11 5, Op.verifyWorkProof 1 0] demoInit

def c1post : State := stateOf (releaseMilestone 1 0 c1pre) c1pre

def c1es : List Event := evsOf (releaseMilestone 1 0 c1pre)

def c3open : State := run [Op.createEscrow 1 2 60 2, Op.raiseDispute 1] demoInit

def c4s : State :=
  run [Op.createEscrow 1 2 100 1, Op.submitWorkProof 2 0 11 5, Op.verifyWorkProof 1 0,
       Op.releaseMilestone 1 0] demoInit

def c4wpre : State :=
  run [Op.createEscrow 1 2 100 2, Op.submitWorkProof 2 0 11 5, Op.verifyWorkProof 1 0] demoInit

def c4wpost : State := stateOf (releaseMilestone 1 0 c4wpre) c4wpre

def c4wes : List Event := evsOf (releaseMilestone 1 0 c4wpre)

/-- An open-dispute state whose agent (address 2) has reputation 10 — a score
reachable from the default 50 by four ledger failure events
(50 → 40 → 30 → 20 → 10). -/
def c5s : State :=
  { escrow := { payer := 1, agent := 2, totalAmount := 40, paidAmount := 0,
                totalMilestones := 2, milestonesCompleted := 0,
                isActive := true, isCompleted := false, disputeStatus := .OPEN },
    proofs := fun _ => zeroProof,
    reputations := fun x => if x = 2 then 10 else 0,
    balances := fun _ => 0, custody := 40,
    agentRole := fun x => x == 1, judgeRole := fun x => x == 3,
    adminRole := fun x => x == 4 }

/-- An open-dispute state with remaining balance 51, for the PARTIAL split. -/
def c5p : State :=
  { escrow := { payer := 1, agent := 2, totalAmount := 51, paidAmount := 0,
                totalMilestones := 1, milestonesCompleted := 0,
                isActive := true, isCompleted := false, disputeStatus := .OPEN },
    proofs := fun _ => zeroProof,
    reputations := fun x => if x = 2 then 50 else 0,
    balances := fun _ => 0, custody := 51,
    agentRole := fun x => x == 1, judgeRole := fun x => x == 3,
    adminRole := fun x => x == 4 }

def c6s : State := run [Op.createEscrow 1 2 50 2, Op.emergencyRefund 4] demoInit

def c9s : State := run [Op.createEscrow 1 2 60 2, Op.raiseDispute 1] demoInit

def c9mid : State := stateOf (resolveDispute 3 DisputeStatus.OPEN c9s) c9s

def c10post : State := stateOf (createEscrow 1 2 100 3 demoInit) demoInit

def c10es : List Event := evsOf (createEscrow 1 2 100 3 demoInit)

/-! ### The claims -/

/-- C1: every successful `releaseMilestone` on a non-final milestone pays the
agent exactly `totalAmount / totalMilestones` truncated, and a successful
release of the final milestone (index `totalMilestones - 1`) pays exactly
`totalAmount - paidAmount`; in particular, releasing all 3 milestones of an
escrow with `totalAmount = 100` pays 33, 33, 34 in that order, summing to
exactly 100 (the worked run `demoOps` deposits 100 from the payer and ends
with the agent holding all 100). -/
theorem c1_milestone_payouts :
    (∀ (s s' : State) (sender : Addr) (idx : Nat) (es : List Event),
      releaseMilestone sender idx s = Except.ok (s', es) →
      idx ≠ s.escrow.totalMilestones - 1 →
      s'.balances s.escrow.agent
        = s.balances s.escrow.agent + s.escrow.totalAmount / s.escrow.totalMilestones ∧
      Event.MilestoneReleased idx (s.escrow.totalAmount / s.escrow.totalMilestones) ∈ es) ∧
    (∀ (s s' : State) (sender : Addr) (idx : Nat) (es : List Event),
      releaseMilestone sender idx s = Except.ok (s', es) →
      idx = s.escrow.totalMilestones - 1 →
      s'.balances s.escrow.agent
        = s.balances s.escrow.agent + (s.escrow.totalAmount - s.escrow.paidAmount) ∧
      Event.MilestoneReleased idx (s.escrow.totalAmount - s.escrow.paidAmount) ∈ es) ∧
    milestoneAmounts demoEvents = [(0, 33), (1, 33), (2, 34)] ∧
    33 + 33 + 34 = 100 ∧
    demoFinal.balances 2 = 100 ∧
    demoFinal.escrow.paidAmount = 100 := by
  refine ⟨?_, ?_, by decide, by decide, by decide, by decide⟩
  · intro s s' sender idx es h hne
    obtain ⟨_, _, _, _, _, _, _, _, _, _, _, _, _, _, _, hbal, _, _, _, _, hmem⟩ :=
      releaseMilestone_ok h
    have hamt : payoutAmount s idx = s.escrow.totalAmount / s.escrow.totalMilestones := by
      rw [payoutAmount, if_neg hne]
    rw [hamt] at hbal hmem
    exact ⟨hbal, hmem⟩
  · intro s s' sender idx es h heq
    obtain ⟨_, _, _, _, _, _, _, _, _, _, _, _, _, _, _, hbal, _, _, _, _, hmem⟩ :=
      releaseMilestone_ok h
    have hamt : payoutAmount s idx = s.escrow.totalAmount - s.escrow.paidAmount := by
      rw [payoutAmount, if_pos heq]
    rw [hamt] at hbal hmem
    exact ⟨hbal, hmem⟩

/-- Witness for C1: the first (non-final) release of the 100/3 escrow pays
exactly 100 / 3 = 33 to the agent. -/
theorem c1_milestone_payouts_witness :
    c1post.balances c1pre.escrow.agent
      = c1pre.balances c1pre.escrow.agent
        + c1pre.escrow.totalAmount / c1pre.escrow.totalMilestones ∧
    Event.MilestoneReleased 0
      (c1pre.escrow.totalAmount / c1pre.escrow.totalMilestones) ∈ c1es :=
  c1_milestone_payouts.1 c1pre c1post 1 0 c1es (by rfl) (by decide)

/-- C2: starting from deployment, after any trace of ledger calls the current
escrow satisfies `paidAmount ≤ totalAmount`, and `paidAmount` equals the sum
of the payouts of all successful `releaseMilestone` calls on that escrow
(i.e. since its creation), as recorded in the emitted events; each call either
reverts without touching the state or preserves this invariant. -/
theorem c2_paid_invariant (ops : List Op) (bal : Addr → Nat) (ar jr adr : Addr → Bool) :
    (runEvents ops (initState bal ar jr adr, [])).1.escrow.paidAmount
      ≤ (runEvents ops (initState bal ar jr adr, [])).1.escrow.totalAmount ∧
    (runEvents ops (initState bal ar jr adr, [])).1.escrow.paidAmount
      = (releasedSinceCreate (runEvents ops (initState bal ar jr adr, [])).2).sum := by
  have h := paidOK_runEvents ops (initState bal ar jr adr) [] (paidOK_init bal ar jr adr)
  exact ⟨escrowInv_paid_le h.1, h.2⟩

/-- C3: whenever `disputeStatus = OPEN`, `releaseMilestone` reverts (with
`InDispute` once the call passes the role and activity guards that precede the
dispute check), and a revert leaves the state unchanged by construction;
`raiseDispute` succeeds only for the escrow's payer or agent on an active
escrow and sets the status to OPEN; and from any OPEN state, after any trace
containing no `resolveDispute` (and no `createEscrow` overwriting the escrow),
every `releaseMilestone` call still reverts. -/
theorem c3_dispute_freeze :
    (∀ (s : State) (sender : Addr) (idx : Nat),
      s.escrow.disputeStatus = .OPEN →
      ∃ e : Err, releaseMilestone sender idx s = Except.error e) ∧
    (∀ (s : State) (sender : Addr) (idx : Nat),
      s.escrow.disputeStatus = .OPEN → s.agentRole sender = true →
      s.escrow.isActive = true →
      releaseMilestone sender idx s = Except.error .InDispute) ∧
    (∀ (s s' : State) (sender : Addr) (es : List Event),
      raiseDispute sender s = Except.ok (s', es) →
      s.escrow.isActive = true ∧
      (sender = s.escrow.payer ∨ sender = s.escrow.agent) ∧
      s'.escrow.disputeStatus = .OPEN) ∧
    (∀ (s : State) (ops : List Op) (sender : Addr) (idx : Nat),
      s.escrow.disputeStatus = .OPEN → noCreateNoResolve ops = true →
      ∃ e : Err, releaseMilestone sender idx (run ops s) = Except.error e) := by
  refine ⟨?_, ?_, ?_, ?_⟩
  · intro s sender idx h
    exact releaseMilestone_open_error h
  · intro s sender idx h hrole hact
    exact releaseMilestone_open_InDispute h hrole hact
  · intro s s' sender es h
    obtain ⟨h1, h2, h3, _⟩ := raiseDispute_ok h
    exact ⟨h1, h2, by rw [h3]⟩
  · intro s ops sender idx h hops
    exact releaseMilestone_open_error (run_open ops s h hops)

/-- Witness for C3: in the concrete disputed escrow `c3open`, a release
attempt by the role-holding caller reverts with `InDispute`. -/
theorem c3_dispute_freeze_witness :
    releaseMilestone 1 0 c3open = Except.error .InDispute :=
  c3_dispute_freeze.2.1 c3open 1 0 (by decide) (by decide) (by decide)

/-- C4 (amended): a release succeeds only when the index equals the escrow's
current `milestonesCompleted` counter; calling `releaseMilestone` twice with
the same index makes the second call revert and leave the state unchanged —
with `SequenceError` when the escrow is still active (the first release was
not the final milestone), but with `NotActive` when the first release was the
final milestone and completed the escrow, since the activity guard precedes
the sequence guard. -/
theorem c4_strict_sequence :
    (∀ (s s' : State) (sender : Addr) (idx : Nat) (es : List Event),
      releaseMilestone sender idx s = Except.ok (s', es) →
      idx = s.escrow.milestonesCompleted) ∧
    (∀ (s s' : State) (sender : Addr) (idx : Nat) (es : List Event),
      releaseMilestone sender idx s = Except.ok (s', es) →
      s'.escrow.isActive = true →
      releaseMilestone sender idx s' = Except.error .SequenceError) ∧
    (∀ (s s' : State) (sender : Addr) (idx : Nat) (es : List Event),
      releaseMilestone sender idx s = Except.ok (s', es) →
      s'.escrow.isActive = false →
      releaseMilestone sender idx s' = Except.error .NotActive) := by
  refine ⟨?_, ?_, ?_⟩
  · intro s s' sender idx es h
    exact (releaseMilestone_ok h).2.2.2.1
  · intro s s' sender idx es h hact
    obtain ⟨hrole, _, _, hidx, _, _, _, _, _, _, _, hcomp, hdisp, _, _, _, _, hrole2, _, _, _⟩ :=
      releaseMilestone_ok h
    unfold releaseMilestone
    rw [require_pos (by rw [hrole2]; exact hrole), require_pos hact, require_pos hdisp,
      require_neg (by rw [hcomp, ← hidx]; omega)]
  · intro s s' sender idx es h hact
    obtain ⟨hrole, _, _, _, _, _, _, _, _, _, _, _, _, _, _, _, _, hrole2, _, _, _⟩ :=
      releaseMilestone_ok h
    unfold releaseMilestone
    rw [require_pos (by rw [hrole2]; exact hrole), require_neg (by simp [hact])]

/-- Witness for C4: in a 100/2 escrow, after releasing milestone 0 the escrow
is still active and a second release of index 0 reverts with
`SequenceError`. -/
theorem c4_strict_sequence_witness :
    releaseMilestone 1 0 c4wpost = Except.error .SequenceError :=
  c4_strict_sequence.2.1 c4wpre c4wpost 1 0 c4wes (by rfl) (by decide)

/-- Counterexample for C4 as stated: with a single-milestone escrow the first
release completes the escrow, and the second call with the same index reverts
with `NotActive`, not `SequenceError`. -/
theorem c4_counterexample :
    c4s.escrow.isCompleted = true ∧
    errOf (releaseMilestone 1 0 c4s) = some Err.NotActive ∧
    errOf (releaseMilestone 1 0 c4s) ≠ some Err.SequenceError := by decide

/-- C5 (amended): on an OPEN dispute with `remaining = totalAmount -
paidAmount` available in custody, `resolveDispute` pays the agent all of
`remaining` under RESOLVED_FULL and applies the ledger's success reputation
update (+5 capped at 100); pays the payer all of `remaining` under REFUNDED
and applies the ledger's failure reputation update (−10 only when the current
score exceeds 10, otherwise unchanged — not the claimed unconditional −10
floored at 0); and under RESOLVED_PARTIAL pays the agent
`remaining / 2` and the payer `remaining - remaining / 2` with no
reputation change; it marks the escrow inactive in every branch.  In
particular, PARTIAL with remaining = 51 pays the agent 25 and the payer
26 and leaves the escrow inactive. -/
theorem c5_resolution_payouts :
    (∀ (s : State) (sender : Addr),
      s.judgeRole sender = true → s.escrow.disputeStatus = .OPEN →
      s.escrow.totalAmount - s.escrow.paidAmount ≤ s.custody →
      ∃ s' : State,
        resolveDispute sender .RESOLVED_FULL s = Except.ok (s',
          [.ReputationUpdated s.escrow.agent
             (updateReputation (s.reputations s.escrow.agent) true),
           .DisputeResolved .RESOLVED_FULL]) ∧
        s'.balances s.escrow.agent
          = s.balances s.escrow.agent + (s.escrow.totalAmount - s.escrow.paidAmount) ∧
        s'.escrow.isActive = false ∧
        s'.escrow.disputeStatus = .RESOLVED_FULL ∧
        s'.reputations s.escrow.agent
          = updateReputation (s.reputations s.escrow.agent) true) ∧
    (∀ (s : State) (sender : Addr),
      s.judgeRole sender = true → s.escrow.disputeStatus = .OPEN →
      s.escrow.totalAmount - s.escrow.paidAmount ≤ s.custody →
      ∃ s' : State,
        resolveDispute sender .REFUNDED s = Except.ok (s',
          [.ReputationUpdated s.escrow.agent
             (updateReputation (s.reputations s.escrow.agent) false),
           .DisputeResolved .REFUNDED]) ∧
        s'.balances s.escrow.payer
          = s.balances s.escrow.payer + (s.escrow.totalAmount - s.escrow.paidAmount) ∧
        s'.escrow.isActive = false ∧
        s'.escrow.disputeStatus = .REFUNDED ∧
        s'.reputations s.escrow.agent
          = updateReputation (s.reputations s.escrow.agent) false) ∧
    (∀ (s : State) (sender : Addr),
      s.judgeRole sender = true → s.escrow.disputeStatus = .OPEN →
      s.escrow.totalAmount - s.escrow.paidAmount ≤ s.custody →
      s.escrow.payer ≠ s.escrow.agent →
      ∃ s' : State,
        resolveDispute sender .RESOLVED_PARTIAL s
          = Except.ok (s', [.DisputeResolved .RESOLVED_PARTIAL]) ∧
        s'.balances s.escrow.agent
          = s.balances s.escrow.agent + (s.escrow.totalAmount - s.escrow.paidAmount) / 2 ∧
        s'.balances s.escrow.payer
          = s.balances s.escrow.payer
            + ((s.escrow.totalAmount - s.escrow.paidAmount)
               - (s.escrow.totalAmount - s.escrow.paidAmount) / 2) ∧
        s'.escrow.isActive = false ∧
        s'.escrow.disputeStatus = .RESOLVED_PARTIAL ∧
        s'.reputations = s.reputations) ∧
    (errOf (resolveDispute 3 .RESOLVED_PARTIAL c5p) = none ∧
     (stateOf (resolveDispute 3 .RESOLVED_PARTIAL c5p) c5p).balances 2 = 25 ∧
     (stateOf (resolveDispute 3 .RESOLVED_PARTIAL c5p) c5p).balances 1 = 26 ∧
     (stateOf (resolveDispute 3 .RESOLVED_PARTIAL c5p) c5p).escrow.isActive = false) := by
  refine ⟨?_, ?_, ?_, by decide⟩
  · intro s sender hj hd hc
    simp only [resolveDispute]
    rw [require_pos hj, require_pos hd, require_pos hc]
    exact ⟨_, rfl, by simp [upd], rfl, rfl, by simp [upd]⟩
  · intro s sender hj hd hc
    simp only [resolveDispute]
    rw [require_pos hj, require_pos hd, require_pos hc]
    exact ⟨_, rfl, by simp [upd], rfl, rfl, by simp [upd]⟩
  · intro s sender hj hd hc hne
    have h1 : (s.escrow.totalAmount - s.escrow.paidAmount) / 2 ≤ s.custody :=
      le_trans (Nat.div_le_self _ _) hc
    have h2 : s.escrow.totalAmount - s.escrow.paidAmount
        - (s.escrow.totalAmount - s.escrow.paidAmount) / 2
        ≤ s.custody - (s.escrow.totalAmount - s.escrow.paidAmount) / 2 :=
      Nat.sub_le_sub_right hc _
    simp only [resolveDispute]
    rw [require_pos hj, require_pos hd, require_pos h1, require_pos h2]
    refine ⟨_, rfl, ?_, ?_, rfl, rfl, rfl⟩
    · simp [upd, hne, Ne.symm hne]
    · simp [upd, hne, Ne.symm hne]

/-- Witness for C5: the REFUNDED branch applied to the concrete disputed
escrow `c5s` (remaining 40, agent reputation 10). -/
theorem c5_resolution_payouts_witness :
    ∃ s' : State,
      resolveDispute 3 .REFUNDED c5s = Except.ok (s',
        [.ReputationUpdated c5s.escrow.agent
           (updateReputation (c5s.reputations c5s.escrow.agent) false),
         .DisputeResolved .REFUNDED]) ∧
      s'.balances c5s.escrow.payer
        = c5s.balances c5s.escrow.payer
          + (c5s.escrow.totalAmount - c5s.escrow.paidAmount) ∧
      s'.escrow.isActive = false ∧
      s'.escrow.disputeStatus = .REFUNDED ∧
      s'.reputations c5s.escrow.agent
        = updateReputation (c5s.reputations c5s.escrow.agent) false :=
  c5_resolution_payouts.2.1 c5s 3 (by decide) (by decide) (by decide)

/-- Counterexample for C5 as stated: resolving the dispute of `c5s` with
REFUNDED pays the payer the full remaining 40, but the agent's reputation,
currently 10, stays 10 instead of dropping by 10 (the contract's failure
branch skips any score not exceeding 10). -/
theorem c5_counterexample :
    c5s.escrow.disputeStatus = .OPEN ∧
    c5s.reputations 2 = 10 ∧
    errOf (resolveDispute 3 .REFUNDED c5s) = none ∧
    (stateOf (resolveDispute 3 .REFUNDED c5s) c5s).balances 1 = 40 ∧
    (stateOf (resolveDispute 3 .REFUNDED c5s) c5s).reputations 2 = 10 ∧
    (stateOf (resolveDispute 3 .REFUNDED c5s) c5s).reputations 2 ≠ 0 := by decide

/-- C6 (amended): once an escrow is completed (`isCompleted = true`, inactive,
no dispute — the state every completion reaches), its record never changes
again under any trace of calls: `createEscrow` for the task always reverts and
`isActive` never becomes true again.  After `emergencyRefund` or a dispute
resolution of a non-completed escrow, however, `isCompleted` is false, so
`createEscrow` can succeed again for the same task and reset `isActive` to
true (see the counterexample). -/
theorem c6_terminal_completion :
    (∀ (s : State) (ops : List Op),
      s.escrow.isCompleted = true → s.escrow.isActive = false →
      s.escrow.disputeStatus = .NONE → (run ops s).escrow = s.escrow) ∧
    (∀ (s : State) (sender agent : Addr) (amount milestones : Nat),
      s.escrow.isCompleted = true →
      ∃ e : Err, createEscrow sender agent amount milestones s = Except.error e) :=
  ⟨fun s ops hC hA hD => run_frozen ops s hC hA hD,
   fun _ _ _ _ _ hC => createEscrow_completed_error hC⟩

/-- Witness for C6: the completed 100/3 escrow stays frozen under a
re-creation attempt followed by a dispute attempt. -/
theorem c6_terminal_completion_witness :
    (run [Op.createEscrow 1 2 30 1, Op.raiseDispute 1] demoFinal).escrow
      = demoFinal.escrow :=
  c6_terminal_completion.1 demoFinal [Op.createEscrow 1 2 30 1, Op.raiseDispute 1]
    (by decide) (by decide) (by decide)

/-- Counterexample for C6 as stated: after an emergency refund the escrow
record has `isActive = false` and `isCompleted = false`, so `createEscrow`
for the same task succeeds again and `isActive` becomes true again. -/
theorem c6_counterexample :
    c6s.escrow.isActive = false ∧
    c6s.escrow.isCompleted = false ∧
    errOf (createEscrow 1 2 30 1 c6s) = none ∧
    (stateOf (createEscrow 1 2 30 1 c6s) c6s).escrow.isActive = true := by decide

/-- C7: the contract's failure branch reads
`if (current > 10) reputations[agent] = current - 10 < 0 ? 0 : current - 10`,
so a failure event leaves any score of 10 or less unchanged instead of
flooring it at 0 as the spec states: at score 10 the result is 10 (the claim
demands 0), and at score 5 it is 5.  The success branch does cap at 100 as
claimed. -/
theorem c7_reputation_floor_divergence :
    updateReputation 10 false = 10 ∧
    updateReputation 5 false = 5 ∧
    updateReputation 10 false ≠ 0 ∧
    updateReputation 11 false = 1 ∧
    updateReputation 99 true = 100 ∧
    updateReputation 100 true = 100 ∧
    updateReputation 95 true = 100 := by decide

/-- C9 (amended): with an OPEN dispute, `resolveDispute` with resolution NONE
or OPEN succeeds, deactivates the escrow, stores the passed status, and
transfers nothing in that call, so the remaining balance stays in custody at
that point; the escrow is not *permanently* frozen, however — storing OPEN
leaves the dispute resolvable again, so a later `resolveDispute` can still pay
the remaining balance out, and a later `createEscrow` can reactivate the
record (see the counterexample). -/
theorem c9_unrecognized_resolution :
    ∀ (s : State) (sender : Addr) (res : DisputeStatus),
      s.judgeRole sender = true → s.escrow.disputeStatus = .OPEN →
      (res = .NONE ∨ res = .OPEN) →
      ∃ s' : State,
        resolveDispute sender res s = Except.ok (s', [.DisputeResolved res]) ∧
        s'.escrow.isActive = false ∧
        s'.escrow.disputeStatus = res ∧
        s'.custody = s.custody ∧
        s'.balances = s.balances ∧
        s'.reputations = s.reputations ∧
        s'.escrow.totalAmount = s.escrow.totalAmount ∧
        s'.escrow.paidAmount = s.escrow.paidAmount ∧
        s'.escrow.isCompleted = s.escrow.isCompleted := by
  intro s sender res hj hd hres
  rcases hres with h | h <;> subst h <;>
    (simp only [resolveDispute]
     rw [require_pos hj, require_pos hd]
     exact ⟨_, rfl, rfl, rfl, rfl, rfl, rfl, rfl, rfl, rfl⟩)

/-- Witness for C9: resolving the concrete dispute `c9s` with status NONE. -/
theorem c9_unrecognized_resolution_witness :
    ∃ s' : State,
      resolveDispute 3 .NONE c9s = Except.ok (s', [.DisputeResolved .NONE]) ∧
      s'.escrow.isActive = false ∧
      s'.escrow.disputeStatus = .NONE ∧
      s'.custody = c9s.custody ∧
      s'.balances = c9s.balances ∧
      s'.reputations = c9s.reputations ∧
      s'.escrow.totalAmount = c9s.escrow.totalAmount ∧
      s'.escrow.paidAmount = c9s.escrow.paidAmount ∧
      s'.escrow.isCompleted = c9s.escrow.isCompleted :=
  c9_unrecognized_resolution c9s 3 .NONE (by decide) (by decide) (Or.inl rfl)

/-- Counterexample for C9 as stated: resolving the dispute of `c9s` with
resolution OPEN transfers nothing (custody stays 60), but the stored status is
again OPEN, so a second `resolveDispute` with REFUNDED succeeds and pays the
remaining 60 back to the payer — the balance does not stay in the contract's
custody and the outcome is not permanent. -/
theorem c9_counterexample :
    errOf (resolveDispute 3 .OPEN c9s) = none ∧
    c9mid.escrow.isActive = false ∧
    c9mid.custody = 60 ∧
    c9mid.escrow.disputeStatus = .OPEN ∧
    errOf (resolveDispute 3 .REFUNDED c9mid) = none ∧
    (stateOf (resolveDispute 3 .REFUNDED c9mid) c9mid).custody = 0 ∧
    (stateOf (resolveDispute 3 .REFUNDED c9mid) c9mid).balances 1 = 100 := by decide

/-- C10: a successful `createEscrow` sets the named agent's reputation to 50
exactly when the stored score is 0 (the code cannot distinguish an unseen
agent from one whose score is 0), and leaves any nonzero score unchanged. -/
theorem c10_reputation_lazy_init :
    ∀ (s s' : State) (sender agent : Addr) (amount milestones : Nat) (es : List Event),
      createEscrow sender agent amount milestones s = Except.ok (s', es) →
      (s.reputations agent = 0 → s'.reputations agent = 50) ∧
      (s.reputations agent ≠ 0 → s'.reputations agent = s.reputations agent) := by
  intro s s' sender agent amount milestones es h
  have hc := createEscrow_ok h
  exact ⟨hc.2.2.2.2.2.2.2.1, hc.2.2.2.2.2.2.2.2.1⟩

/-- Witness for C10: creating the demo escrow for the unseen agent (address 2,
stored score 0) initializes its reputation to 50. -/
theorem c10_reputation_lazy_init_witness :
    c10post.reputations 2 = 50 :=
  (c10_reputation_lazy_init demoInit c10post 1 2 100 3 c10es (by rfl)).1 (by decide)

/-- C8: mutating ledger calls run through the FIFO mutation queue, in which
each enqueued operation runs its full retry loop before the next begins
(`processQueue` distributes over concatenation, preserving order);
inside the loop every attempt `k` rebuilds its transaction options from the
confirmed nonce re-resolved at that attempt (`getTxOptions (nonceAt k)`);
the loop performs at most 5 attempts in total; a run of nonce conflicts is
retried until the bound is reached and then surfaced; a success after nonce
retries is confirmed; and any non-nonce error is thrown immediately at the
attempt where it occurs, with no further retries.  The backoff delays and
jitter between retries are real-time behaviour outside the model. -/
theorem c8_executor_retry :
    (∀ (op : Nat → TxOpts → Outcome) (nonceAt : Nat → Option Nat),
      (executeTransaction op nonceAt).attemptsUsed ≤ 5) ∧
    (∀ (op : Nat → TxOpts → Outcome) (nonceAt : Nat → Option Nat) (k : Nat),
      k < 5 →
      (∀ j, j < k → op j (getTxOptions (nonceAt j)) = .nonceError) →
      op k (getTxOptions (nonceAt k)) = .otherError →
      executeTransaction op nonceAt = .thrown .otherError (k + 1)) ∧
    (∀ (op : Nat → TxOpts → Outcome) (nonceAt : Nat → Option Nat),
      (∀ j, j < 5 → op j (getTxOptions (nonceAt j)) = .nonceError) →
      executeTransaction op nonceAt = .thrown .nonceError 5) ∧
    (∀ (op : Nat → TxOpts → Outcome) (nonceAt : Nat → Option Nat) (k : Nat),
      k < 5 →
      (∀ j, j < k → op j (getTxOptions (nonceAt j)) = .nonceError) →
      op k (getTxOptions (nonceAt k)) = .confirmed →
      executeTransaction op nonceAt = .confirmed (k + 1)) ∧
    (∀ jobs jobs2 : List ((Nat → TxOpts → Outcome) × (Nat → Option Nat)),
      processQueue (jobs ++ jobs2) = processQueue jobs ++ processQueue jobs2) := by
  refine ⟨?_, ?_, ?_, ?_, ?_⟩
  · intro op nonceAt
    exact executeLoop_attempts_le op nonceAt 5 5 0
  · intro op nonceAt k hk hprev hlast
    interval_cases k
    · exact executeLoop_other hlast
    · have h0 := hprev 0 (by omega)
      calc executeTransaction op nonceAt
          = executeLoop op nonceAt 5 4 1 := executeLoop_nonce_continue h0 (by omega)
        _ = .thrown .otherError 2 := executeLoop_other hlast
    · have h0 := hprev 0 (by omega)
      have h1 := hprev 1 (by omega)
      calc executeTransaction op nonceAt
          = executeLoop op nonceAt 5 4 1 := executeLoop_nonce_continue h0 (by omega)
        _ = executeLoop op nonceAt 5 3 2 := executeLoop_nonce_continue h1 (by omega)
        _ = .thrown .otherError 3 := executeLoop_other hlast
    · have h0 := hprev 0 (by omega)
      have h1 := hprev 1 (by omega)
      have h2 := hprev 2 (by omega)
      calc executeTransaction op nonceAt
          = executeLoop op nonceAt 5 4 1 := executeLoop_nonce_continue h0 (by omega)
        _ = executeLoop op nonceAt 5 3 2 := executeLoop_nonce_continue h1 (by omega)
        _ = executeLoop op nonceAt 5 2 3 := executeLoop_nonce_continue h2 (by omega)
        _ = .thrown .otherError 4 := executeLoop_other hlast
    · have h0 := hprev 0 (by omega)
      have h1 := hprev 1 (by omega)
      have h2 := hprev 2 (by omega)
      have h3 := hprev 3 (by omega)
      calc executeTransaction op nonceAt
          = executeLoop op nonceAt 5 4 1 := executeLoop_nonce_continue h0 (by omega)
        _ = executeLoop op nonceAt 5 3 2 := executeLoop_nonce_continue h1 (by omega)
        _ = executeLoop op nonceAt 5 2 3 := executeLoop_nonce_continue h2 (by omega)
        _ = executeLoop op nonceAt 5 1 4 := executeLoop_nonce_continue h3 (by omega)
        _ = .thrown .otherError 5 := executeLoop_other hlast
  · intro op nonceAt hall
    have h0 := hall 0 (by omega)
    have h1 := hall 1 (by omega)
    have h2 := hall 2 (by omega)
    have h3 := hall 3 (by omega)
    have h4 := hall 4 (by omega)
    calc executeTransaction op nonceAt
        = executeLoop op nonceAt 5 4 1 := executeLoop_nonce_continue h0 (by omega)
      _ = executeLoop op nonceAt 5 3 2 := executeLoop_nonce_continue h1 (by omega)
      _ = executeLoop op nonceAt 5 2 3 := executeLoop_nonce_continue h2 (by omega)
      _ = executeLoop op nonceAt 5 1 4 := executeLoop_nonce_continue h3 (by omega)
      _ = .thrown .nonceError 5 := executeLoop_nonce_stop h4 (by omega)
  · intro op nonceAt k hk hprev hlast
    interval_cases k
    · exact executeLoop_confirmed hlast
    · have h0 := hprev 0 (by omega)
      calc executeTransaction op nonceAt
          = executeLoop op nonceAt 5 4 1 := executeLoop_nonce_continue h0 (by omega)
        _ = .confirmed 2 := executeLoop_confirmed hlast
    · have h0 := hprev 0 (by omega)
      have h1 := hprev 1 (by omega)
      calc executeTransaction op nonceAt
          = executeLoop op nonceAt 5 4 1 := executeLoop_nonce_continue h0 (by omega)
        _ = executeLoop op nonceAt 5 3 2 := executeLoop_nonce_continue h1 (by omega)
        _ = .confirmed 3 := executeLoop_confirmed hlast
    · have h0 := hprev 0 (by omega)
      have h1 := hprev 1 (by omega)
      have h2 := hprev 2 (by omega)
      calc executeTransaction op nonceAt
          = executeLoop op nonceAt 5 4 1 := executeLoop_nonce_continue h0 (by omega)
        _ = executeLoop op nonceAt 5 3 2 := executeLoop_nonce_continue h1 (by omega)
        _ = executeLoop op nonceAt 5 2 3 := executeLoop_nonce_continue h2 (by omega)
        _ = .confirmed 4 := executeLoop_confirmed hlast
    · have h0 := hprev 0 (by omega)
      have h1 := hprev 1 (by omega)
      have h2 := hprev 2 (by omega)
      have h3 := hprev 3 (by omega)
      calc executeTransaction op nonceAt
          = executeLoop op nonceAt 5 4 1 := executeLoop_nonce_continue h0 (by omega)
        _ = executeLoop op nonceAt 5 3 2 := executeLoop_nonce_continue h1 (by omega)
        _ = executeLoop op nonceAt 5 2 3 := executeLoop_nonce_continue h2 (by omega)
        _ = executeLoop op nonceAt 5 1 4 := executeLoop_nonce_continue h3 (by omega)
        _ = .confirmed 5 := executeLoop_confirmed hlast
  · intro jobs jobs2
    simp [processQueue]

/-- Witness for C8: an operation whose first attempt hits a nonce conflict and
whose second attempt fails with a non-nonce error is surfaced immediately
after 2 attempts. -/
theorem c8_executor_retry_witness :
    executeTransaction (fun j _ => if j = 0 then Outcome.nonceError else Outcome.otherError)
      (fun _ => some 7) = .thrown .otherError 2 :=
  c8_executor_retry.2.1 (fun j _ => if j = 0 then Outcome.nonceError else Outcome.otherError)
    (fun _ => some 7) 1 (by decide)
    (fun j hj => by interval_cases j; rfl) (by rfl)

end MNEE
